import Mathlib

/-!
Verification of the GadjetHubUz web application (`app.py`): a shallow
embedding of its persistent store, credential handling and request
handlers, together with proofs of the specified properties.

The embedding conventions:
* SQLite tables become Lean lists of rows; `AUTOINCREMENT` ids become an
  explicit next-id counter per table; `CURRENT_TIMESTAMP` defaults become
  an explicit `now : Nat` argument to the inserting handler.
* `hashlib.sha256(...).hexdigest()` is implemented bit-for-bit over `Nat`
  with explicit `% 2^32` reductions (constants derived, as in the SHA-256
  standard, from the fractional parts of square/cube roots of primes).
* Python's truthiness on form fields, `str.strip()`, and `float()` on
  finite decimal literals are modelled explicitly; a `float()` failure
  (Python `ValueError`) surfaces as the `Resp.fault` response, modelling
  an unhandled exception reaching the browser.
* Flask's session is `Option Nat` (the `user_id` key), flash messages are
  `(text, category)` pairs attached to the response.
-/

/-! ### SHA-256 over `Nat` -/

/-- The word modulus of SHA-256, 2^32. -/
def w32 : Nat := 4294967296

/-- Right rotation of a 32-bit word (input assumed `< w32`). -/
def rotr (k n : Nat) : Nat := ((n >>> k) ||| (n <<< (32 - k))) % w32

/-- Bitwise complement of a 32-bit word. -/
def not32 (n : Nat) : Nat := n ^^^ (w32 - 1)

/-- Fuel-driven binary search for the integer square root:
invariant `lo^2 ≤ n < hi^2`. -/
def isqrtGo : Nat → Nat → Nat → Nat → Nat
  | 0, lo, _, _ => lo
  | fuel + 1, lo, hi, n =>
    if hi ≤ lo + 1 then lo
    else
      let m := (lo + hi) / 2
      if m * m ≤ n then isqrtGo fuel m hi n else isqrtGo fuel lo m n

/-- Integer square root by binary search. -/
def isqrt (n : Nat) : Nat := isqrtGo 200 0 (n + 1) n

/-- Fuel-driven binary search for the integer cube root:
invariant `lo^3 ≤ n < hi^3`. -/
def icbrtGo : Nat → Nat → Nat → Nat → Nat
  | 0, lo, _, _ => lo
  | fuel + 1, lo, hi, n =>
    if hi ≤ lo + 1 then lo
    else
      let m := (lo + hi) / 2
      if m * m * m ≤ n then icbrtGo fuel m hi n else icbrtGo fuel lo m n

/-- Integer cube root by binary search. -/
def icbrt (n : Nat) : Nat := icbrtGo 200 0 (n + 1) n

/-- First 32 bits of the fractional part of the square root of `p`. -/
def fracSqrt (p : Nat) : Nat := isqrt (p * 2 ^ 64) % w32

/-- First 32 bits of the fractional part of the cube root of `p`. -/
def fracCbrt (p : Nat) : Nat := icbrt (p * 2 ^ 96) % w32

/-- The first 64 primes, sources of the SHA-256 round constants. -/
def primes64 : List Nat :=
  [2, 3, 5, 7, 11, 13, 17, 19, 23, 29, 31, 37, 41, 43, 47, 53,
   59, 61, 67, 71, 73, 79, 83, 89, 97, 101, 103, 107, 109, 113, 127, 131,
   137, 139, 149, 151, 157, 163, 167, 173, 179, 181, 191, 193, 197, 199, 211, 223,
   227, 229, 233, 239, 241, 251, 257, 263, 269, 271, 277, 281, 283, 293, 307, 311]

/-- The 64 SHA-256 round constants. -/
def sha256K : List Nat := primes64.map fracCbrt

/-- The running hash state: eight 32-bit words. -/
structure H8 where
  a : Nat
  b : Nat
  c : Nat
  d : Nat
  e : Nat
  f : Nat
  g : Nat
  h : Nat
deriving DecidableEq, Repr

/-- The SHA-256 initial hash value. -/
def sha256Init : H8 :=
  ⟨fracSqrt 2, fracSqrt 3, fracSqrt 5, fracSqrt 7,
   fracSqrt 11, fracSqrt 13, fracSqrt 17, fracSqrt 19⟩

/-- Message-schedule sigma-0. -/
def ssig0 (x : Nat) : Nat := (rotr 7 x) ^^^ (rotr 18 x) ^^^ (x >>> 3)

/-- Message-schedule sigma-1. -/
def ssig1 (x : Nat) : Nat := (rotr 17 x) ^^^ (rotr 19 x) ^^^ (x >>> 10)

/-- Compression Sigma-0. -/
def bsig0 (x : Nat) : Nat := (rotr 2 x) ^^^ (rotr 13 x) ^^^ (rotr 22 x)

/-- Compression Sigma-1. -/
def bsig1 (x : Nat) : Nat := (rotr 6 x) ^^^ (rotr 11 x) ^^^ (rotr 25 x)

/-- The choice function. -/
def ch (x y z : Nat) : Nat := (x &&& y) ^^^ ((not32 x) &&& z)

/-- The majority function. -/
def maj (x y z : Nat) : Nat := (x &&& y) ^^^ (x &&& z) ^^^ (y &&& z)

/-- One step of message-schedule extension: append the next word. -/
def scheduleStep (ws : List Nat) : List Nat :=
  let n := ws.length
  ws ++ [(ws.getD (n - 16) 0 + ssig0 (ws.getD (n - 15) 0)
          + ws.getD (n - 7) 0 + ssig1 (ws.getD (n - 2) 0)) % w32]

/-- Iterate schedule extension `k` times. -/
def scheduleExt : Nat → List Nat → List Nat
  | 0, ws => ws
  | k + 1, ws => scheduleExt k (scheduleStep ws)

/-- One compression round with constant `k` and schedule word `w`. -/
def sha256Round (st : H8) (k : Nat) (w : Nat) : H8 :=
  let t1 := (st.h + bsig1 st.e + ch st.e st.f st.g + k + w) % w32
  let t2 := (bsig0 st.a + maj st.a st.b st.c) % w32
  ⟨(t1 + t2) % w32, st.a, st.b, st.c, (st.d + t1) % w32, st.e, st.f, st.g⟩

/-- Four bytes, big-endian, to one 32-bit word (list version). -/
def wordsOfBytes : List Nat → List Nat
  | a :: b :: c :: d :: rest => (((a * 256 + b) * 256 + c) * 256 + d) :: wordsOfBytes rest
  | _ => []

/-- Compress one 64-byte block into the running state. -/
def compressBlock (st : H8) (block : List Nat) : H8 :=
  let ws := scheduleExt 48 (wordsOfBytes block)
  let fin := (sha256K.zip ws).foldl (fun s kw => sha256Round s kw.1 kw.2) st
  ⟨(st.a + fin.a) % w32, (st.b + fin.b) % w32, (st.c + fin.c) % w32,
   (st.d + fin.d) % w32, (st.e + fin.e) % w32, (st.f + fin.f) % w32,
   (st.g + fin.g) % w32, (st.h + fin.h) % w32⟩

/-- Big-endian encoding: `k` bytes of `n`. -/
def beBytes : Nat → Nat → List Nat
  | 0, _ => []
  | k + 1, n => ((n >>> (8 * k)) % 256) :: beBytes k n

/-- SHA-256 padding: a `0x80` byte, zeros to 56 mod 64, then the bit
length as 8 big-endian bytes. -/
def padMessage (msg : List Nat) : List Nat :=
  let L := msg.length
  let zeros := (119 - L % 64) % 64
  msg ++ [128] ++ List.replicate zeros 0 ++ beBytes 8 (8 * L)

/-- Split a byte list into 64-byte blocks (fuel = list length). -/
def chunksGo : Nat → List Nat → List (List Nat)
  | 0, _ => []
  | _, [] => []
  | fuel + 1, l => l.take 64 :: chunksGo fuel (l.drop 64)

/-- Split a byte list into 64-byte blocks. -/
def chunks64 (l : List Nat) : List (List Nat) := chunksGo l.length l

/-- UTF-8 encoding of one character, as byte values. -/
def utf8Char (c : Char) : List Nat :=
  let n := c.toNat
  if n < 128 then [n]
  else if n < 2048 then [192 + n / 64, 128 + n % 64]
  else if n < 65536 then [224 + n / 4096, 128 + (n / 64) % 64, 128 + n % 64]
  else [240 + n / 262144, 128 + (n / 4096) % 64, 128 + (n / 64) % 64, 128 + n % 64]

/-- UTF-8 encoding of a string (Python `str.encode()`). -/
def utf8Bytes (s : String) : List Nat := (s.data.map utf8Char).flatten

/-- One lowercase hex digit. -/
def hexDigit (n : Nat) : Char :=
  if n < 10 then Char.ofNat (48 + n) else Char.ofNat (87 + n)

/-- Eight lowercase hex digits of a 32-bit word. -/
def hex8 (n : Nat) : List Char :=
  [hexDigit ((n >>> 28) % 16), hexDigit ((n >>> 24) % 16),
   hexDigit ((n >>> 20) % 16), hexDigit ((n >>> 16) % 16),
   hexDigit ((n >>> 12) % 16), hexDigit ((n >>> 8) % 16),
   hexDigit ((n >>> 4) % 16), hexDigit (n % 16)]

/-- Model of `hashlib.sha256(password.encode()).hexdigest()` from
`hash_password` in `app.py`. -/
def hash_password (password : String) : String :=
  let final := (chunks64 (padMessage (utf8Bytes password))).foldl compressBlock sha256Init
  ⟨hex8 final.a ++ hex8 final.b ++ hex8 final.c ++ hex8 final.d ++
   hex8 final.e ++ hex8 final.f ++ hex8 final.g ++ hex8 final.h⟩

/-! ### Python `float()` on decimal literals

`marketplace` converts the raw `price` form field with `float(price)`.
Modelled here on finite decimal literals (optional sign, digits, optional
fractional part, surrounding whitespace), returning the exact rational in
place of the IEEE-754 rounding; every other string — in particular any
non-numeric one — returns `none`, modelling the `ValueError` Python
raises. (Python additionally accepts exponent notation and inf/nan;
those inputs play no role in the claims.) -/

/-- The whitespace set of Python `str.strip()` / `float()`. -/
def isSpaceChar (c : Char) : Bool :=
  c = ' ' || c = '\t' || c = '\n' || c = '\r' || c = '\x0b' || c = '\x0c'

/-- Python `str.strip()`: drop leading and trailing whitespace. -/
def pyStrip (s : String) : String :=
  ⟨((s.data.dropWhile isSpaceChar).reverse.dropWhile isSpaceChar).reverse⟩

/-- Decimal value of a digit list. -/
def digitsVal (l : List Char) : Nat := l.foldl (fun a c => a * 10 + (c.toNat - 48)) 0

/-- Is the character a decimal digit? -/
def isDig (c : Char) : Bool := 48 ≤ c.toNat && c.toNat ≤ 57

/-- Parse an unsigned decimal literal `digits[.digits]` (at least one
digit overall) as an exact rational. -/
def parseUnsigned (cs : List Char) : Option ℚ :=
  let ip := cs.takeWhile isDig
  match cs.dropWhile isDig with
  | [] => if ip.isEmpty then none else some (digitsVal ip)
  | dot :: fp =>
    if dot = '.' && fp.all isDig && !(ip.isEmpty && fp.isEmpty) then
      some ((digitsVal ip : ℚ) + (digitsVal fp : ℚ) / (10 : ℚ) ^ fp.length)
    else none

/-- Python `float(s)` on finite decimal literals: strips whitespace,
handles an optional sign; `none` is a `ValueError`. -/
def pyFloat (s : String) : Option ℚ :=
  match (pyStrip s).data with
  | '-' :: rest => (parseUnsigned rest).map (fun q => -q)
  | '+' :: rest => parseUnsigned rest
  | cs => parseUnsigned cs

namespace App

/-! ### Data model

The four SQLite tables of `init_db`, one structure per row. `done` is an
SQLite `INTEGER` (the toggle arithmetic `1 - done` is signed), `price` is
a `REAL` modelled as an exact rational, `created_at` timestamps are
naturals supplied by the caller. `AUTOINCREMENT` primary keys become the
per-table next-id counters of `DB`. -/

/-- A row of the `users` table. -/
structure User where
  id : Nat
  username : String
  email : String
  password : String
  created_at : Nat
deriving DecidableEq, Repr

/-- A row of the `tasks` table. -/
structure Task where
  id : Nat
  user_id : Nat
  title : String
  done : Int
  created_at : Nat
deriving DecidableEq, Repr

/-- A row of the `listings` table. -/
structure Listing where
  id : Nat
  user_id : Nat
  title : String
  description : String
  price : ℚ
  listing_type : String
  created_at : Nat
deriving DecidableEq, Repr

/-- A row of the `messages` table. -/
structure Msg where
  id : Nat
  name : String
  email : String
  message : String
  created_at : Nat
deriving DecidableEq, Repr

/-- The persistent store: the four tables and their id counters. -/
structure DB where
  users : List User
  tasks : List Task
  listings : List Listing
  messages : List Msg
  nextUserId : Nat
  nextTaskId : Nat
  nextListingId : Nat
  nextMsgId : Nat
deriving DecidableEq, Repr

/-- A freshly initialised store (`init_db` on an empty file). -/
def emptyDB : DB := ⟨[], [], [], [], 1, 1, 1, 1⟩

/-- A flash message: text and category. -/
abbrev Flash := String × String

/-- The observable outcome of one request: a redirect (by route name), a
rendered page (by template name), or an unhandled exception escaping the
handler (`fault`). Flashes carry the messages emitted while handling. -/
inductive Resp where
  | redirect (target : String) (flashes : List Flash)
  | page (tmpl : String) (flashes : List Flash)
  | fault (exn : String)
deriving DecidableEq, Repr

/-- Does the response reach the browser as a normal HTTP page/redirect
(as opposed to an unhandled exception)? -/
def isNormal : Resp → Bool
  | .fault _ => false
  | _ => true

/-- The session cookie: the `user_id` key, when set. -/
abbrev Session := Option Nat

/-! ### Helpers and handlers from `app.py` -/

/-- Helper `current_user`: `None` without a session key, else
`SELECT * FROM users WHERE id = ?` (first matching row). -/
def current_user (sess : Session) (db : DB) : Option User :=
  match sess with
  | none => none
  | some uid => db.users.find? (fun u => u.id == uid)

/-- Decorator `login_required`: short-circuit to the login redirect (with the
warning flash) when `current_user` resolves nothing; otherwise run the
wrapped handler, the resolved identity in scope (handlers read
`session["user_id"]`, which is the resolved row's id). -/
def login_required (fn : Nat → DB → Resp × DB) (sess : Session) (db : DB) : Resp × DB :=
  match current_user sess db with
  | none => (Resp.redirect ("login") [("Iltimos, avval tizimga kiring.", "warning")], db)
  | some u => fn u.id db

/-- The registration form fields, each absent or a raw string
(`request.form.get`). -/
structure RegForm where
  username : Option String
  email : Option String
  password : Option String
  confirm_password : Option String
deriving DecidableEq, Repr

/-- The `INSERT INTO users ...` of `register`: fails (SQLite
`IntegrityError`) exactly when the `UNIQUE` constraint on username or
email is violated; on success appends the row with the next id. -/
def insert_user (db : DB) (un em pw : String) (now : Nat) : Except Unit DB :=
  if db.users.any (fun u => u.username == un || u.email == em) then
    Except.error ()
  else
    Except.ok { db with
      users := db.users ++ [⟨db.nextUserId, un, em, pw, now⟩],
      nextUserId := db.nextUserId + 1 }

/-- POST `/register`: redirect away when already authenticated, else
validate, then insert-and-catch-`IntegrityError`. -/
def register (sess : Session) (form : RegForm) (db : DB) (now : Nat) : Resp × DB :=
  if (current_user sess db).isSome then (Resp.redirect ("dashboard") [], db)
  else
    let username := pyStrip (form.username.getD "")
    let email := pyStrip (form.email.getD "")
    let password := form.password.getD ""
    let confirm := form.confirm_password.getD ""
    if username = "" || email = "" || password = "" then
      (Resp.page ("register") [("Barcha maydonlar to\x27ldirilishi shart.", "danger")], db)
    else if password ≠ confirm then
      (Resp.page ("register") [("Parollar mos kelmayapti.", "danger")], db)
    else if password.length < 6 then
      (Resp.page ("register")
        [("Parol kamida 6 ta belgidan iborat bo\x27lishi kerak.", "danger")], db)
    else
      match insert_user db username email (hash_password password) now with
      | Except.ok db' =>
        (Resp.redirect ("login")
          [("Ro\x27yxatdan muvaffaqiyatli o\x27tdingiz! Iltimos, tizimga kiring.", "success")], db')
      | Except.error _ =>
        (Resp.page ("register")
          [("Bu foydalanuvchi nomi yoki email allaqachon mavjud.", "danger")], db)

/-- The credential lookup of `login`:
`SELECT * FROM users WHERE email = ? AND password = ?` with the
submitted email (stripped) and `hash_password` of the submitted
password. -/
def verify (db : DB) (email pw : String) : Option User :=
  db.users.find? (fun u => u.email == email && u.password == hash_password pw)

/-- POST `/login`: redirect away when already authenticated, else look
the credential pair up; a match sets `session["user_id"]` and redirects
to the dashboard, a miss re-renders with the error flash. Returns
(response, store, new session). -/
def login (sess : Session) (form_email form_password : String) (db : DB) :
    Resp × DB × Session :=
  if (current_user sess db).isSome then (Resp.redirect ("dashboard") [], db, sess)
  else
    match verify db (pyStrip form_email) form_password with
    | some u =>
      (Resp.redirect ("dashboard")
        [("Xush kelibsiz, " ++ u.username ++ "!", "success")], db, some u.id)
    | none =>
      (Resp.page ("login") [("Email yoki parol noto\x27g\x27ri.", "danger")], db, sess)

/-- The marketplace form fields (`request.form.get`); an absent `price`
defaults to the integer `0`, which is falsy — `priceTruthy` below. -/
structure MarketForm where
  title : Option String
  description : Option String
  price : Option String
  listing_type : Option String
deriving DecidableEq, Repr

/-- Python truthiness of `request.form.get("price", 0)`: the integer
default `0` is falsy, a present string is truthy iff non-empty. -/
def priceTruthy : Option String → Bool
  | none => false
  | some s => s ≠ ""

/-- POST `/marketplace` (the write branch of `marketplace`): when the
stripped title and the raw price are truthy, `float(price)` — whose
failure is an uncaught `ValueError`, i.e. `Resp.fault` — then insert the
listing verbatim (`listing_type` defaulted to `"sell"`, no further
validation) and redirect; otherwise flash the validation error. -/
def marketplace_post (uid : Nat) (form : MarketForm) (db : DB) (now : Nat) : Resp × DB :=
  let title := pyStrip (form.title.getD "")
  let description := pyStrip (form.description.getD "")
  let listing_type := form.listing_type.getD "sell"
  if title ≠ "" && priceTruthy form.price then
    match pyFloat (form.price.getD "") with
    | none => (Resp.fault ("ValueError"), db)
    | some q =>
      (Resp.redirect ("marketplace") [("E\x27lon muvaffaqiyatli joylashtirildi!", "success")],
       { db with
         listings := db.listings ++ [⟨db.nextListingId, uid, title, description, q, listing_type, now⟩],
         nextListingId := db.nextListingId + 1 })
  else
    (Resp.page ("marketplace") [("Sarlavha va narx majburiy.", "danger")], db)

/-- POST `/marketplace/delete/<id>`:
`DELETE FROM listings WHERE id = ? AND user_id = ?`, then the
unconditional info flash and redirect. -/
def delete_listing (uid : Nat) (listing_id : Nat) (db : DB) : Resp × DB :=
  (Resp.redirect ("marketplace") [("E\x27lon o\x27chirildi.", "info")],
   { db with listings := db.listings.filter (fun l => !(l.id == listing_id && l.user_id == uid)) })

/-- GET `/dashboard` view data: the caller's tasks newest-first and the
count of truthy `done` flags. -/
structure DashboardView where
  tasks : List Task
  done_count : Nat
deriving DecidableEq, Repr

/-- Model of `ORDER BY created_at DESC` on tasks. -/
def orderByCreatedDesc (l : List Task) : List Task :=
  l.insertionSort (fun a b => b.created_at ≤ a.created_at)

/-- GET `/dashboard`: `SELECT * FROM tasks WHERE user_id = ? ORDER BY
created_at DESC` and `done_count = sum(1 for t in tasks if t["done"])`
(SQLite integers are truthy iff non-zero). Reads only. -/
def dashboard (uid : Nat) (db : DB) : DashboardView × DB :=
  let tasks := orderByCreatedDesc (db.tasks.filter (fun t => t.user_id == uid))
  (⟨tasks, (tasks.filter (fun t => t.done != 0)).length⟩, db)

/-- POST `/task/add`: insert when the stripped title is non-empty, else
flash a warning; always redirect to the dashboard. -/
def add_task (uid : Nat) (form_title : Option String) (db : DB) (now : Nat) : Resp × DB :=
  let title := pyStrip (form_title.getD "")
  if title ≠ "" then
    (Resp.redirect ("dashboard") [],
     { db with
       tasks := db.tasks ++ [⟨db.nextTaskId, uid, title, 0, now⟩],
       nextTaskId := db.nextTaskId + 1 })
  else
    (Resp.redirect ("dashboard") [("Vazifa matni bo\x27sh bo\x27lishi mumkin emas.", "warning")], db)

/-- The per-row effect of `UPDATE tasks SET done = 1 - done WHERE id = ?
AND user_id = ?`: rows matching both filters get the flipped flag, all
others are untouched. -/
def toggleRow (uid : Nat) (task_id : Nat) (t : Task) : Task :=
  if t.id == task_id && t.user_id == uid then { t with done := 1 - t.done } else t

/-- POST `/task/toggle/<id>`:
`UPDATE tasks SET done = 1 - done WHERE id = ? AND user_id = ?`, then
redirect with no flash. -/
def toggle_task (uid : Nat) (task_id : Nat) (db : DB) : Resp × DB :=
  (Resp.redirect ("dashboard") [],
   { db with tasks := db.tasks.map (toggleRow uid task_id) })

/-- POST `/task/delete/<id>`:
`DELETE FROM tasks WHERE id = ? AND user_id = ?`, then redirect with no
flash. -/
def delete_task (uid : Nat) (task_id : Nat) (db : DB) : Resp × DB :=
  (Resp.redirect ("dashboard") [],
   { db with tasks := db.tasks.filter (fun t => !(t.id == task_id && t.user_id == uid)) })

/-- POST `/contact`: insert the message when all three stripped fields
are non-empty. -/
def contact (form_name form_email form_message : Option String) (db : DB) (now : Nat) :
    Resp × DB :=
  let name := pyStrip (form_name.getD "")
  let email := pyStrip (form_email.getD "")
  let message := pyStrip (form_message.getD "")
  if name ≠ "" && email ≠ "" && message ≠ "" then
    (Resp.redirect ("contact") [("Xabaringiz muvaffaqiyatli yuborildi!", "success")],
     { db with
       messages := db.messages ++ [⟨db.nextMsgId, name, email, message, now⟩],
       nextMsgId := db.nextMsgId + 1 })
  else
    (Resp.page ("contact") [("Iltimos, barcha maydonlarni to\x27ldiring.", "danger")], db)

/-! ### Concrete fixtures used by the witness theorems -/

/-- A two-task store for the frame witness: row 0 is owned and targeted,
row 1 belongs to user 2. -/
def frameDB : DB := ⟨[], [⟨1, 1, "a", 0, 4⟩, ⟨2, 2, "b", 0, 9⟩], [], [], 1, 3, 1, 1⟩

/-- A handler that just renders a marker page, for the guard witness. -/
def probeHandler : Nat → DB → Resp × DB := fun _ db => (Resp.page ("probe") [], db)

/-- A one-user store for the guard witness. -/
def guardDB : DB := ⟨[⟨7, "bob", "b@x.com", "h", 0⟩], [], [], [], 8, 1, 1, 1⟩

/-- A store holding the registered alice of the spec scenario (her
credential is the stored SHA-256 digest of "secret1"). -/
def aliceDB : DB := ⟨[⟨1, "alice", "a@x.com", hash_password ("secret1"), 0⟩], [], [], [], 2, 1, 1, 1⟩

/-- A store already holding alice, for the duplicate witness. -/
def dupDB : DB := ⟨[⟨1, "alice", "a@x.com", "stored", 0⟩], [], [], [], 2, 1, 1, 1⟩

/-! ### General helper lemmas -/

/-- A map whose function fixes every member is the identity. -/
theorem map_eq_self_of_mem {α : Type} {f : α → α} {l : List α}
    (h : ∀ a ∈ l, f a = a) : l.map f = l := by
  induction l with
  | nil => rfl
  | cons a as ih =>
    simp only [List.map_cons, h a (List.mem_cons_self a as)]
    rw [ih (fun b hb => h b (List.mem_cons_of_mem a hb))]

/-- A filter whose predicate holds on every member keeps the list. -/
theorem filter_eq_self_of_mem {α : Type} {p : α → Bool} {l : List α}
    (h : ∀ a ∈ l, p a = true) : l.filter p = l := by
  induction l with
  | nil => rfl
  | cons a as ih =>
    simp only [List.filter_cons, h a (List.mem_cons_self a as), if_pos]
    rw [ih (fun b hb => h b (List.mem_cons_of_mem a hb))]

/-- A row that fails the ownership filter is fixed by `toggleRow`. -/
theorem toggleRow_eq_self (uid task_id : Nat) (t : Task)
    (h : ¬(t.id = task_id ∧ t.user_id = uid)) : toggleRow uid task_id t = t := by
  simp only [toggleRow]
  rw [if_neg (by simpa using h)]

/-- A row that passes the ownership filter gets exactly the flipped flag. -/
theorem toggleRow_eq_flip (uid task_id : Nat) (t : Task)
    (h : t.id = task_id ∧ t.user_id = uid) :
    toggleRow uid task_id t = { t with done := 1 - t.done } := by
  simp only [toggleRow]
  rw [if_pos (by simp [h.1, h.2])]

/-- Toggling twice: `toggleRow` is an involution on rows: `1 - (1 - done) = done` in the
signed SQLite arithmetic, and no other field moves. -/
theorem toggleRow_toggleRow (uid task_id : Nat) (t : Task) :
    toggleRow uid task_id (toggleRow uid task_id t) = t := by
  by_cases h : t.id = task_id ∧ t.user_id = uid
  · rw [toggleRow_eq_flip uid task_id t h,
      toggleRow_eq_flip uid task_id _ (by exact ⟨h.1, h.2⟩)]
    have hd : 1 - (1 - t.done) = t.done := by omega
    simp only [hd]
  · rw [toggleRow_eq_self uid task_id t h, toggleRow_eq_self uid task_id t h]

/-- The hex digest produced by `hash_password` always has 64 characters. -/
theorem hash_password_length (p : String) : (hash_password p).length = 64 := by
  simp [hash_password, hex8]

/-! ### C8: toggling is an involution -/

/-- C8: task toggle is an involution: toggling the same task id twice
by the same user restores the whole store (in particular every done
flag), and a single toggle of a task owned by the acting user flips its
done flag unconditionally. -/
theorem toggle_task_involution (uid task_id : Nat) (db : DB) :
    (toggle_task uid task_id (toggle_task uid task_id db).2).2 = db ∧
    (∀ t ∈ db.tasks, t.id = task_id ∧ t.user_id = uid →
      ({ t with done := 1 - t.done } : Task) ∈ (toggle_task uid task_id db).2.tasks) := by
  constructor
  · show ({ db with tasks := (db.tasks.map _).map _ } : DB) = db
    have key : (db.tasks.map (toggleRow uid task_id)).map (toggleRow uid task_id) = db.tasks := by
      rw [List.map_map]
      exact map_eq_self_of_mem (fun t _ => toggleRow_toggleRow uid task_id t)
    rw [key]
  · intro t ht hmatch
    have : toggleRow uid task_id t = { t with done := 1 - t.done } := by
      simp only [toggleRow]
      rw [if_pos (by simp [hmatch.1, hmatch.2])]
    exact this ▸ List.mem_map_of_mem _ ht

/-- Concrete run of `toggle_task_involution`: the "Buy milk" task of the
spec scenario, toggled twice. -/
theorem toggle_task_involution_witness :
    (toggle_task 1 1 (toggle_task 1 1 ⟨[], [⟨1, 1, "Buy milk", 0, 0⟩], [], [], 1, 2, 1, 1⟩).2).2 =
      ⟨[], [⟨1, 1, "Buy milk", 0, 0⟩], [], [], 1, 2, 1, 1⟩ ∧
    (⟨1, 1, "Buy milk", 1, 0⟩ : Task) ∈
      (toggle_task 1 1 ⟨[], [⟨1, 1, "Buy milk", 0, 0⟩], [], [], 1, 2, 1, 1⟩).2.tasks :=
  ⟨(toggle_task_involution 1 1 _).1,
   (toggle_task_involution 1 1 ⟨[], [⟨1, 1, "Buy milk", 0, 0⟩], [], [], 1, 2, 1, 1⟩).2
     ⟨1, 1, "Buy milk", 0, 0⟩ (by decide) (by decide)⟩

/-! ### C1: non-owner mutations are silent no-ops -/

/-- C1: when no row matches both the given id and the acting user's
id (a non-owner or a missing row), task toggle, task delete and listing
delete leave the store unchanged, and each of the three responses is the
very response produced on any input whatsoever — in particular on a
successful owned mutation — so nothing distinguishes the no-op from
success. -/
theorem nonowner_mutations_noop (uid task_id listing_id : Nat) (db : DB)
    (ht : ∀ t ∈ db.tasks, ¬(t.id = task_id ∧ t.user_id = uid))
    (hl : ∀ l ∈ db.listings, ¬(l.id = listing_id ∧ l.user_id = uid)) :
    (toggle_task uid task_id db).2 = db ∧
    (delete_task uid task_id db).2 = db ∧
    (delete_listing uid listing_id db).2 = db ∧
    (∀ uid2 id2 db2, (toggle_task uid2 id2 db2).1 = (toggle_task uid task_id db).1) ∧
    (∀ uid2 id2 db2, (delete_task uid2 id2 db2).1 = (delete_task uid task_id db).1) ∧
    (∀ uid2 id2 db2, (delete_listing uid2 id2 db2).1 = (delete_listing uid listing_id db).1) := by
  refine ⟨?_, ?_, ?_, fun _ _ _ => rfl, fun _ _ _ => rfl, fun _ _ _ => rfl⟩
  · show ({ db with tasks := db.tasks.map _ } : DB) = db
    rw [map_eq_self_of_mem (fun t htm => toggleRow_eq_self uid task_id t (ht t htm))]
  · show ({ db with tasks := db.tasks.filter _ } : DB) = db
    rw [filter_eq_self_of_mem (fun t htm => by simpa using not_and_or.mp (ht t htm))]
  · show ({ db with listings := db.listings.filter _ } : DB) = db
    rw [filter_eq_self_of_mem (fun l hlm => by simpa using not_and_or.mp (hl l hlm))]

/-- Concrete run of `nonowner_mutations_noop`: user 1 targets a task and
a listing that both belong to user 2; nothing changes. -/
theorem nonowner_mutations_noop_witness :
    (toggle_task 1 5 ⟨[], [⟨5, 2, "x", 0, 3⟩], [⟨5, 2, "y", "", 1, "sell", 3⟩], [], 1, 6, 6, 1⟩).2 =
      ⟨[], [⟨5, 2, "x", 0, 3⟩], [⟨5, 2, "y", "", 1, "sell", 3⟩], [], 1, 6, 6, 1⟩ ∧
    (delete_task 1 5 ⟨[], [⟨5, 2, "x", 0, 3⟩], [⟨5, 2, "y", "", 1, "sell", 3⟩], [], 1, 6, 6, 1⟩).2 =
      ⟨[], [⟨5, 2, "x", 0, 3⟩], [⟨5, 2, "y", "", 1, "sell", 3⟩], [], 1, 6, 6, 1⟩ ∧
    (delete_listing 1 5 ⟨[], [⟨5, 2, "x", 0, 3⟩], [⟨5, 2, "y", "", 1, "sell", 3⟩], [], 1, 6, 6, 1⟩).2 =
      ⟨[], [⟨5, 2, "x", 0, 3⟩], [⟨5, 2, "y", "", 1, "sell", 3⟩], [], 1, 6, 6, 1⟩ := by
  have h := nonowner_mutations_noop 1 5 5
    ⟨[], [⟨5, 2, "x", 0, 3⟩], [⟨5, 2, "y", "", 1, "sell", 3⟩], [], 1, 6, 6, 1⟩
    (by decide) (by decide)
  exact ⟨h.1, h.2.1, h.2.2.1⟩

/-! ### C10: the toggle's frame -/

/-- C10: a task toggle by the owner touches nothing but the `done`
field of the rows matching the id-and-owner filter: all other tables and
counters are equal, the task list keeps its length, every row keeps its
`id`, `user_id`, `title` and `created_at`, and every row not matching
the filter is kept whole. -/
theorem toggle_task_frame (uid task_id : Nat) (db : DB) :
    ((toggle_task uid task_id db).2.users = db.users ∧
     (toggle_task uid task_id db).2.listings = db.listings ∧
     (toggle_task uid task_id db).2.messages = db.messages ∧
     (toggle_task uid task_id db).2.nextUserId = db.nextUserId ∧
     (toggle_task uid task_id db).2.nextTaskId = db.nextTaskId ∧
     (toggle_task uid task_id db).2.nextListingId = db.nextListingId ∧
     (toggle_task uid task_id db).2.nextMsgId = db.nextMsgId) ∧
    (toggle_task uid task_id db).2.tasks.length = db.tasks.length ∧
    ∀ i (h : i < db.tasks.length) (h2 : i < (toggle_task uid task_id db).2.tasks.length),
      (((toggle_task uid task_id db).2.tasks.get ⟨i, h2⟩).id = (db.tasks.get ⟨i, h⟩).id ∧
       ((toggle_task uid task_id db).2.tasks.get ⟨i, h2⟩).user_id = (db.tasks.get ⟨i, h⟩).user_id ∧
       ((toggle_task uid task_id db).2.tasks.get ⟨i, h2⟩).title = (db.tasks.get ⟨i, h⟩).title ∧
       ((toggle_task uid task_id db).2.tasks.get ⟨i, h2⟩).created_at = (db.tasks.get ⟨i, h⟩).created_at) ∧
      (¬((db.tasks.get ⟨i, h⟩).id = task_id ∧ (db.tasks.get ⟨i, h⟩).user_id = uid) →
        (toggle_task uid task_id db).2.tasks.get ⟨i, h2⟩ = db.tasks.get ⟨i, h⟩) := by
  refine ⟨⟨rfl, rfl, rfl, rfl, rfl, rfl, rfl⟩, by simp [toggle_task], ?_⟩
  intro i h h2
  have hg : (toggle_task uid task_id db).2.tasks.get ⟨i, h2⟩
      = toggleRow uid task_id (db.tasks.get ⟨i, h⟩) := by
    simp [toggle_task, List.get_eq_getElem, List.getElem_map]
  rw [hg]
  by_cases hc : (db.tasks.get ⟨i, h⟩).id = task_id ∧ (db.tasks.get ⟨i, h⟩).user_id = uid
  · rw [toggleRow_eq_flip uid task_id _ hc]
    exact ⟨⟨rfl, rfl, rfl, rfl⟩, fun hn => absurd hc hn⟩
  · rw [toggleRow_eq_self uid task_id _ hc]
    exact ⟨⟨rfl, rfl, rfl, rfl⟩, fun _ => rfl⟩


/-- Concrete run of `toggle_task_frame`: toggling task 1 as user 1 in
`frameDB` keeps the other tables, the length, the targeted row's title,
and the whole untargeted row. -/
theorem toggle_task_frame_witness :
    (toggle_task 1 1 frameDB).2.users = frameDB.users ∧
    (toggle_task 1 1 frameDB).2.tasks.length = frameDB.tasks.length ∧
    ((toggle_task 1 1 frameDB).2.tasks.get ⟨0, by decide⟩).title =
      (frameDB.tasks.get ⟨0, by decide⟩).title ∧
    (toggle_task 1 1 frameDB).2.tasks.get ⟨1, by decide⟩ = frameDB.tasks.get ⟨1, by decide⟩ :=
  ⟨(toggle_task_frame 1 1 frameDB).1.1,
   (toggle_task_frame 1 1 frameDB).2.1,
   ((toggle_task_frame 1 1 frameDB).2.2 0 (by decide) (by decide)).1.2.2.1,
   ((toggle_task_frame 1 1 frameDB).2.2 1 (by decide) (by decide)).2 (by decide)⟩

/-! ### C5: the authorization gate -/

/-- C5: `login_required` with no resolvable identity returns the
login redirect with the warning flash and the untouched store, the
wrapped handler never invoked (the result is this fixed pair for every
handler); with a resolved identity it runs the wrapped handler on the
store with that identity's user id — a row of the users table whose id
is the session's `user_id` key. -/
theorem login_required_guard (fn : Nat → DB → Resp × DB) (sess : Session) (db : DB) :
    (current_user sess db = none →
      login_required fn sess db =
        (Resp.redirect ("login") [("Iltimos, avval tizimga kiring.", "warning")], db)) ∧
    (∀ u, current_user sess db = some u →
      login_required fn sess db = fn u.id db ∧ u ∈ db.users ∧ sess = some u.id) := by
  constructor
  · intro h
    simp only [login_required, h]
  · intro u hu
    refine ⟨by simp only [login_required, hu], ?_⟩
    cases sess with
    | none => simp [current_user] at hu
    | some uid =>
      simp only [current_user] at hu
      have hm := List.mem_of_find?_eq_some hu
      have hp := List.find?_some hu
      simp only [beq_iff_eq] at hp
      exact ⟨hm, by rw [hp]⟩



/-- Concrete run of `login_required_guard`: an empty session is turned
away untouched; session user 7 reaches the handler. -/
theorem login_required_guard_witness :
    login_required probeHandler none emptyDB =
      (Resp.redirect ("login") [("Iltimos, avval tizimga kiring.", "warning")], emptyDB) ∧
    login_required probeHandler (some 7) guardDB = probeHandler 7 guardDB :=
  ⟨(login_required_guard probeHandler none emptyDB).1 rfl,
   ((login_required_guard probeHandler (some 7) guardDB).2 ⟨7, "bob", "b@x.com", "h", 0⟩
     (by decide)).1⟩

/-! ### C2: credential verification -/

/-- C2: the POST `/login` lookup finds a user exactly when a stored
row carries the submitted (stripped) email together with the SHA-256
hash of the submitted password; whatever it returns satisfies that
predicate; and — when nobody is logged in — a match (and only a match)
sets the session identity to the matched user's id, while a miss leaves
session and store as they were and shows the error notice. -/
theorem login_verify_correct (sess : Session) (em pw : String) (db : DB) :
    ((verify db (pyStrip em) pw).isSome ↔
      ∃ u ∈ db.users, u.email = (pyStrip em) ∧ u.password = hash_password pw) ∧
    (∀ u, verify db (pyStrip em) pw = some u →
      u ∈ db.users ∧ u.email = (pyStrip em) ∧ u.password = hash_password pw) ∧
    (current_user sess db = none →
      (∀ u, verify db (pyStrip em) pw = some u →
        login sess em pw db =
          (Resp.redirect ("dashboard")
            [("Xush kelibsiz, " ++ u.username ++ "!", "success")], db, some u.id)) ∧
      (verify db (pyStrip em) pw = none →
        login sess em pw db =
          (Resp.page ("login") [("Email yoki parol noto\x27g\x27ri.", "danger")], db, sess))) := by
  refine ⟨?_, ?_, ?_⟩
  · simp [verify, List.find?_isSome, Bool.and_eq_true, beq_iff_eq, and_assoc]
  · intro u hu
    have hm := List.mem_of_find?_eq_some hu
    have hp := List.find?_some hu
    simp only [Bool.and_eq_true, beq_iff_eq] at hp
    exact ⟨hm, hp.1, hp.2⟩
  · intro h
    constructor
    · intro u hu
      simp [login, h, hu]
    · intro hn
      simp [login, h, hn]


set_option maxRecDepth 100000 in
/-- Concrete run of `login_verify_correct`: alice's email with the right
password matches and logs her in; a lookup on an empty store misses and
changes nothing. -/
theorem login_verify_correct_witness :
    (verify aliceDB (pyStrip ("a@x.com")) "secret1").isSome = true ∧
    login none ("a@x.com") "secret1" aliceDB =
      (Resp.redirect ("dashboard") [("Xush kelibsiz, alice!", "success")], aliceDB, some 1) ∧
    login none "" "x" emptyDB =
      (Resp.page ("login") [("Email yoki parol noto\x27g\x27ri.", "danger")], emptyDB, none) := by
  refine ⟨?_, ?_, ?_⟩
  · exact (login_verify_correct none ("a@x.com") "secret1" aliceDB).1.mpr
      ⟨⟨1, "alice", "a@x.com", hash_password ("secret1"), 0⟩, by simp [aliceDB], rfl, rfl⟩
  · exact ((login_verify_correct none ("a@x.com") "secret1" aliceDB).2.2 rfl).1
      ⟨1, "alice", "a@x.com", hash_password ("secret1"), 0⟩ (by decide)
  · exact ((login_verify_correct none "" "x" emptyDB).2.2 rfl).2 rfl

/-! ### C3: duplicate registration -/

/-- C3: when exactly one stored user already carries the submitted
(stripped) username or email, any registration attempt leaves the store
exactly as it was — the duplicate insert fails inside the store
(`IntegrityError` path), afterwards exactly one row for that identity
exists and the users table is byte-for-byte the old one, with no partial
row. -/
theorem register_duplicate_noop (sess : Session) (form : RegForm) (db : DB) (now : Nat)
    (hdup : db.users.countP (fun u =>
      u.username == pyStrip (form.username.getD "") ||
      u.email == pyStrip (form.email.getD "")) = 1) :
    (register sess form db now).2 = db ∧
    ((register sess form db now).2).users.countP (fun u =>
      u.username == pyStrip (form.username.getD "") ||
      u.email == pyStrip (form.email.getD "")) = 1 ∧
    ((register sess form db now).2).users = db.users := by
  have hany : db.users.any (fun u =>
      u.username == pyStrip (form.username.getD "") ||
      u.email == pyStrip (form.email.getD "")) = true := by
    rw [List.any_eq_true]
    have hpos : 0 < db.users.countP (fun u =>
        u.username == pyStrip (form.username.getD "") ||
        u.email == pyStrip (form.email.getD "")) := by omega
    exact List.countP_pos_iff.mp hpos
  have hins : insert_user db (pyStrip (form.username.getD "")) (pyStrip (form.email.getD ""))
      (hash_password (form.password.getD "")) now = Except.error () := by
    simp only [insert_user, hany, if_pos]
  have hmain : (register sess form db now).2 = db := by
    by_cases h0 : (current_user sess db).isSome
    · simp [register, h0]
    · simp only [register, h0]
      split
      · rfl
      · split
        · rfl
        · split
          · rfl
          · rw [hins]
            split <;> rfl
  exact ⟨hmain, by rw [hmain]; exact hdup, by rw [hmain]⟩


/-- Concrete run of `register_duplicate_noop`: registering a fresh
username under alice's email changes nothing and keeps exactly one row
for that identity. -/
theorem register_duplicate_noop_witness :
    (register none ⟨some ("bob"), some ("a@x.com"), some ("secret9"), some ("secret9")⟩ dupDB 0).2
      = dupDB ∧
    ((register none ⟨some ("bob"), some ("a@x.com"), some ("secret9"), some ("secret9")⟩ dupDB 0).2).users
      = dupDB.users := by
  have h := register_duplicate_noop none
    ⟨some ("bob"), some ("a@x.com"), some ("secret9"), some ("secret9")⟩ dupDB 0 (by decide)
  exact ⟨h.1, h.2.2⟩

/-! ### C4: registration validation and hashing -/

/-- C4: a registration attempt with an empty (stripped) username or
email, an empty password, mismatched password confirmation, or a
password shorter than 6 characters leaves the store untouched; a
validation-passing attempt for a fresh identity appends exactly one row
whose stored credential is the SHA-256 digest of the password; and that
digest is never the plaintext itself for any password whose length is
not 64 (the digest always has 64 characters). -/
theorem register_validation_and_hashing (sess : Session) (form : RegForm) (db : DB) (now : Nat) :
    (pyStrip (form.username.getD "") = "" ∨ pyStrip (form.email.getD "") = "" ∨
     form.password.getD "" = "" ∨ form.password.getD "" ≠ form.confirm_password.getD "" ∨
     (form.password.getD "").length < 6 →
      (register sess form db now).2 = db) ∧
    (current_user sess db = none →
     pyStrip (form.username.getD "") ≠ "" →
     pyStrip (form.email.getD "") ≠ "" →
     form.password.getD "" ≠ "" →
     form.password.getD "" = form.confirm_password.getD "" →
     ¬(form.password.getD "").length < 6 →
     (∀ u ∈ db.users, ¬(u.username = pyStrip (form.username.getD "") ∨
        u.email = pyStrip (form.email.getD ""))) →
      (register sess form db now).2.users =
        db.users ++ [⟨db.nextUserId, pyStrip (form.username.getD ""),
          pyStrip (form.email.getD ""), hash_password (form.password.getD ""), now⟩]) ∧
    ((form.password.getD "").length ≠ 64 →
      hash_password (form.password.getD "") ≠ form.password.getD "") := by
  refine ⟨?_, ?_, ?_⟩
  · intro hv
    by_cases h0 : (current_user sess db).isSome
    · simp [register, h0]
    · simp only [register, h0]
      split
      · rfl
      · split
        · rfl
        · split
          · rfl
          · split
            · rfl
            · rename_i hc1 hc2 hc3
              exfalso
              simp only [Bool.or_eq_true, decide_eq_true_eq, not_or] at hc1
              rcases hv with h | h | h | h | h
              · exact hc1.1.1 h
              · exact hc1.1.2 h
              · exact hc1.2 h
              · exact hc2 h
              · exact hc3 h
  · intro h0 h1 h2 h3 h4 h5 hfresh
    have hany : db.users.any (fun u =>
        u.username == pyStrip (form.username.getD "") ||
        u.email == pyStrip (form.email.getD "")) = false := by
      rw [List.any_eq_false]
      intro u hu
      have := hfresh u hu
      simp only [Bool.or_eq_true, beq_iff_eq]
      tauto
    have hins : insert_user db (pyStrip (form.username.getD "")) (pyStrip (form.email.getD ""))
        (hash_password (form.password.getD "")) now
        = Except.ok { db with
            users := db.users ++ [⟨db.nextUserId, pyStrip (form.username.getD ""),
              pyStrip (form.email.getD ""), hash_password (form.password.getD ""), now⟩],
            nextUserId := db.nextUserId + 1 } := by
      simp only [insert_user, hany, Bool.false_eq_true, if_false]
    simp only [register]
    rw [if_neg (by simp [h0]), if_neg (by simp [h1, h2, h3]),
      if_neg (not_not_intro h4), if_neg h5, hins]
  · intro hlen heq
    exact hlen (heq ▸ hash_password_length (form.password.getD ""))

/-- Concrete runs of `register_validation_and_hashing`: a short password
is rejected with no store change; alice's valid registration on a fresh
store appends exactly her row with the stored digest; and the digest of
"secret1" is not the plaintext. -/
theorem register_validation_and_hashing_witness :
    (register none ⟨some ("u"), some ("e@x"), some ("abc"), some ("abc")⟩ emptyDB 0).2 = emptyDB ∧
    (register none ⟨some ("alice"), some ("a@x.com"), some ("secret1"), some ("secret1")⟩
        emptyDB 0).2.users =
      [⟨1, "alice", "a@x.com", hash_password ("secret1"), 0⟩] ∧
    hash_password ("secret1") ≠ "secret1" := by
  refine ⟨?_, ?_, ?_⟩
  · exact (register_validation_and_hashing none
      ⟨some ("u"), some ("e@x"), some ("abc"), some ("abc")⟩ emptyDB 0).1
      (Or.inr (Or.inr (Or.inr (Or.inr (by decide)))))
  · exact (register_validation_and_hashing none
      ⟨some ("alice"), some ("a@x.com"), some ("secret1"), some ("secret1")⟩ emptyDB 0).2.1
      rfl (by decide) (by decide) (by decide) rfl (by decide) (by simp [emptyDB])
  · exact (register_validation_and_hashing none
      ⟨some ("alice"), some ("a@x.com"), some ("secret1"), some ("secret1")⟩ emptyDB 0).2.2
      (by decide)

/-! ### C9: the dashboard view -/

/-- C9: the dashboard renders exactly the caller's tasks (a task is
shown iff it is stored and owned by the caller), newest-first by
creation time, the done count is the number of the caller's tasks whose
done flag is set, and the store is untouched. -/
theorem dashboard_correct (uid : Nat) (db : DB) :
    (∀ t, t ∈ (dashboard uid db).1.tasks ↔ (t ∈ db.tasks ∧ t.user_id = uid)) ∧
    List.Sorted (fun a b : Task => b.created_at ≤ a.created_at) (dashboard uid db).1.tasks ∧
    (dashboard uid db).1.done_count =
      (db.tasks.filter (fun t => t.done != 0 && t.user_id == uid)).length ∧
    (dashboard uid db).2 = db := by
  have hperm : ((dashboard uid db).1.tasks).Perm (db.tasks.filter (fun t => t.user_id == uid)) := by
    simpa [dashboard, orderByCreatedDesc] using
      List.perm_insertionSort (fun a b : Task => b.created_at ≤ a.created_at)
        (db.tasks.filter (fun t => t.user_id == uid))
  refine ⟨?_, ?_, ?_, rfl⟩
  · intro t
    rw [hperm.mem_iff, List.mem_filter]
    simp
  · haveI hto : IsTotal Task (fun a b => b.created_at ≤ a.created_at) :=
      ⟨fun a b => Nat.le_total b.created_at a.created_at⟩
    haveI htr : IsTrans Task (fun a b => b.created_at ≤ a.created_at) :=
      ⟨fun _ _ _ hab hbc => Nat.le_trans hbc hab⟩
    exact List.sorted_insertionSort _ _
  · calc (dashboard uid db).1.done_count
        = (dashboard uid db).1.tasks.countP (fun t => t.done != 0) :=
          (List.countP_eq_length_filter _ _).symm
      _ = (db.tasks.filter (fun t => t.user_id == uid)).countP (fun t => t.done != 0) :=
          hperm.countP_eq _
      _ = ((db.tasks.filter (fun t => t.user_id == uid)).filter (fun t => t.done != 0)).length :=
          List.countP_eq_length_filter _ _
      _ = (db.tasks.filter (fun t => t.done != 0 && t.user_id == uid)).length := by
          rw [List.filter_filter]

/-! ### C7: the listing-creation "invariant" does not hold -/

/-- C7 is false on the code: the form titled "x" with price "-5" and
listing_type "junk" passes the title-and-price presence check, yet the
created listing has a negative price and a type outside sell/buy —
neither non-negativity nor the enumeration is enforced. -/
theorem listing_invariant_counterexample :
    (marketplace_post 1 ⟨some ("x"), none, some ("-5"), some ("junk")⟩ emptyDB 0).2.listings =
      [⟨1, 1, "x", "", -5, "junk", 0⟩] ∧
    ¬((0 : ℚ) ≤ -5) ∧ ("junk" : String) ≠ "sell" ∧ ("junk" : String) ≠ "buy" := by
  refine ⟨by decide, by decide, by decide, by decide⟩

/-- C7 (amended): every listing created by a form input passing the
title-and-price presence check carries the parsed decimal value of the
submitted price — which may be negative — and the submitted
listing_type verbatim, `"sell"` only as the default for an absent
field; no sign check and no sell/buy enumeration is enforced. -/
theorem listing_creation_amended (uid : Nat) (form : MarketForm) (db : DB) (now : Nat) (q : ℚ)
    (ht : pyStrip (form.title.getD "") ≠ "")
    (hp : priceTruthy form.price = true)
    (hq : pyFloat (form.price.getD "") = some q) :
    (marketplace_post uid form db now).2.listings =
      db.listings ++ [⟨db.nextListingId, uid, pyStrip (form.title.getD ""),
        pyStrip (form.description.getD ""), q, form.listing_type.getD "sell", now⟩] ∧
    (form.listing_type = none → form.listing_type.getD "sell" = "sell") := by
  constructor
  · simp only [marketplace_post]
    rw [if_pos (by simp [ht, hp]), hq]
  · intro h
    rw [h]
    rfl

/-- Concrete run of `listing_creation_amended`: title "x", price "2", no
type field — the row stores price 2 and the default type "sell". -/
theorem listing_creation_amended_witness :
    (marketplace_post 1 ⟨some ("x"), none, some ("2"), none⟩ emptyDB 0).2.listings =
      [⟨1, 1, "x", "", 2, "sell", 0⟩] ∧
    (none : Option String).getD "sell" = "sell" :=
  ⟨(listing_creation_amended 1 ⟨some ("x"), none, some ("2"), none⟩ emptyDB 0 2
      (by decide) (by decide) (by decide)).1,
   (listing_creation_amended 1 ⟨some ("x"), none, some ("2"), none⟩ emptyDB 0 2
      (by decide) (by decide) (by decide)).2 rfl⟩

/-! ### C6: responses are not always normal -/

/-- C6 is false on the code: POST `/marketplace` with title "x" and
the non-empty, non-numeric price "abc" passes the presence check, then
`float("abc")` raises an uncaught `ValueError` — an unhandled exception
surfaced to the browser, not a normal response. -/
theorem unhandled_fault_counterexample :
    (marketplace_post 1 ⟨some ("x"), none, some ("abc"), none⟩ emptyDB 0).1 =
      Resp.fault ("ValueError") ∧
    isNormal (marketplace_post 1 ⟨some ("x"), none, some ("abc"), none⟩ emptyDB 0).1 = false :=
  ⟨rfl, rfl⟩

/-- C6 (amended): every modelled handler terminates in a normal
page/redirect response carrying its notice — except marketplace
creation, which faults exactly when the presence check passes and the
price fails `float()` parsing; the guard also preserves normality. -/
theorem responses_normal_amended :
    (∀ uid form db now, isNormal (marketplace_post uid form db now).1 = false ↔
      (pyStrip (form.title.getD "") ≠ "" ∧ priceTruthy form.price = true ∧
       pyFloat (form.price.getD "") = none)) ∧
    (∀ sess form db now, isNormal (register sess form db now).1 = true) ∧
    (∀ sess e p db, isNormal (login sess e p db).1 = true) ∧
    (∀ uid tid db, isNormal (toggle_task uid tid db).1 = true) ∧
    (∀ uid tid db, isNormal (delete_task uid tid db).1 = true) ∧
    (∀ uid lid db, isNormal (delete_listing uid lid db).1 = true) ∧
    (∀ uid t db now, isNormal (add_task uid t db now).1 = true) ∧
    (∀ nm e m db now, isNormal (contact nm e m db now).1 = true) ∧
    (∀ fn sess db, (∀ u d, isNormal (fn u d).1 = true) →
      isNormal (login_required fn sess db).1 = true) := by
  refine ⟨?_, ?_, ?_, fun _ _ _ => rfl, fun _ _ _ => rfl, fun _ _ _ => rfl, ?_, ?_, ?_⟩
  · intro uid form db now
    simp only [marketplace_post]
    by_cases hc : (decide (pyStrip (form.title.getD "") ≠ "") && priceTruthy form.price) = true
    · rw [if_pos hc]
      have hc' := hc
      simp only [Bool.and_eq_true, decide_eq_true_eq] at hc'
      cases hf : pyFloat (form.price.getD "") with
      | none => simp [isNormal, hc'.1, hc'.2, hf]
      | some q => simp [isNormal, hf]
    · rw [if_neg hc]
      simp only [isNormal]
      constructor
      · intro h
        exact absurd h (by simp)
      · intro h
        exact absurd (by simp [h.1, h.2.1] : _ = true) hc
  · intro sess form db now
    simp only [register]
    repeat' split
    all_goals rfl
  · intro sess e p db
    simp only [login]
    repeat' split
    all_goals rfl
  · intro uid t db now
    simp only [add_task]
    repeat' split
    all_goals rfl
  · intro nm e m db now
    simp only [contact]
    repeat' split
    all_goals rfl
  · intro fn sess db h
    cases hcu : current_user sess db with
    | none => simp [login_required, hcu, isNormal]
    | some u =>
      simp only [login_required, hcu]
      exact h u.id db

/-- Concrete runs of `responses_normal_amended`: a non-numeric price
faults, an empty registration form responds normally, and the guard on
an anonymous session responds normally. -/
theorem responses_normal_amended_witness :
    isNormal (marketplace_post 1 ⟨some ("x"), none, some ("zz"), none⟩ emptyDB 0).1 = false ∧
    isNormal (register none ⟨none, none, none, none⟩ emptyDB 0).1 = true ∧
    isNormal (login_required probeHandler none emptyDB).1 = true :=
  ⟨(responses_normal_amended.1 1 ⟨some ("x"), none, some ("zz"), none⟩ emptyDB 0).mpr
      ⟨by decide, by decide, by decide⟩,
   responses_normal_amended.2.1 none ⟨none, none, none, none⟩ emptyDB 0,
   responses_normal_amended.2.2.2.2.2.2.2.2 probeHandler none emptyDB (fun _ _ => rfl)⟩

end App
